import Mathlib

/-!
Shallow embedding of the Clout-Calculator scoring core.

The scoring engine lives in `src/artistToolsScraper.js` (current revision)
and `src/unnamed/part_000` (an earlier revision of the same module, namespace
`V1` below); playlist aggregation lives in `src/server.js` in the two
endpoints `POST /api/calculate-clout` and `POST /api/analyze-public-playlist`.

JavaScript numbers are IEEE doubles.  The embedding works at two fidelity
levels:

* an idealised real-number model (`ℝ`, exact arithmetic, Lean's `x / 0 = 0`
  convention) used for the claims whose inputs keep every intermediate value
  finite, and
* a `JsNum` model (`nan` / `posInf` / `negInf` / `fin x`) that tracks the
  IEEE non-finite values produced by division by zero, used for the claims
  about `past = 0` and NaN propagation.  All finite zeros are modelled as
  IEEE `+0` (the only zeros the program produces).

`Date` subtraction yields milliseconds; the functions below take `addedDate`
and `now` as real-valued millisecond timestamps and recompute `monthsAgo`
internally, exactly as each JS function does.
-/

/-- `(now - addedDate) / (1000*60*60*24*30)`: fractional 30-day months,
recomputed inside every JS function that needs it. -/
noncomputable def monthsAgo (addedDate now : ℝ) : ℝ :=
  (now - addedDate) / (1000 * 60 * 60 * 24 * 30)

/-- JS `Math.round`: round half toward `+∞`, i.e. `⌊x + 1/2⌋`. -/
noncomputable def jsRound (x : ℝ) : ℤ :=
  ⌊x + 1 / 2⌋

/-- `estimateListenersAtDate` (src/artistToolsScraper.js, lines 76–105):
project current listeners backward at the artist-bracket growth rate plus
the 1.3%/month platform rate, then `Math.floor`. -/
noncomputable def estimateListenersAtDate (currentListeners addedDate now : ℝ) : ℤ :=
  let spotifyGrowthRate : ℝ := 0.013
  let artistGrowthRate : ℝ :=
    if currentListeners < 10000 then 0.05
    else if currentListeners < 100000 then 0.03
    else if currentListeners < 1000000 then 0.02
    else 0.01
  let combinedGrowthRate := artistGrowthRate + spotifyGrowthRate
  ⌊currentListeners / (1 + combinedGrowthRate) ^ monthsAgo addedDate now⌋

/-- `calculateGrowth` (src/artistToolsScraper.js, lines 113–116): plain
growth percentage, explicitly guarded to return 0 when `pastListeners = 0`. -/
noncomputable def calculateGrowth (currentListeners pastListeners : ℝ) : ℝ :=
  if pastListeners = 0 then 0
  else (currentListeners - pastListeners) / pastListeners * 100

/-- `calculateInflationAdjustedGrowth` (src/artistToolsScraper.js, lines
126–141), idealised real model (valid when `pastListeners ≠ 0`): divide
current listeners by the accumulated 1.3%/month platform inflation, then
take plain growth against the past baseline.  No zero guard in the source. -/
noncomputable def calculateInflationAdjustedGrowth
    (currentListeners pastListeners addedDate now : ℝ) : ℝ :=
  let spotifyGrowthRate : ℝ := 0.013
  let platformInflation := (1 + spotifyGrowthRate) ^ monthsAgo addedDate now
  let inflationAdjustedCurrent := currentListeners / platformInflation
  (inflationAdjustedCurrent - pastListeners) / pastListeners * 100

/-- One row of the discovery-tier ladder: reward multiplier, tier name and
the cosmetic emoji/color labels carried by the source. -/
structure Tier where
  multiplier : ℝ
  name : String
  emoji : String
  color : String

/-- The discovery-tier ladder of `calculateCloutScore`
(src/artistToolsScraper.js, lines 159–219), as the source's if/else chain. -/
noncomputable def tierOf (listenerAtAdd : ℝ) : Tier :=
  if listenerAtAdd < 100 then ⟨20, "Bedroom Producer", "🎧", "#FF10F0"⟩
  else if listenerAtAdd < 500 then ⟨15, "Soundcloud Rapper", "☁️", "#FF6B35"⟩
  else if listenerAtAdd < 1000 then ⟨12, "Underground Legend", "🔥", "#FFD700"⟩
  else if listenerAtAdd < 5000 then ⟨8, "Local Hero", "⭐", "#FFA500"⟩
  else if listenerAtAdd < 10000 then ⟨6, "Early Adopter", "🎯", "#9B59B6"⟩
  else if listenerAtAdd < 50000 then ⟨4, "Tastemaker", "💎", "#3498DB"⟩
  else if listenerAtAdd < 100000 then ⟨3, "Ahead of Curve", "🌊", "#1ABC9C"⟩
  else if listenerAtAdd < 500000 then ⟨2.5, "Indie Enthusiast", "🎸", "#16A085"⟩
  else if listenerAtAdd < 1000000 then ⟨2, "Rising Star Hunter", "🌟", "#27AE60"⟩
  else if listenerAtAdd < 5000000 then ⟨1.5, "Trending Finder", "📈", "#2ECC71"⟩
  else if listenerAtAdd < 10000000 then ⟨1.2, "Popular Follower", "🎵", "#BDC3C7"⟩
  else ⟨1, "Mainstream", "📻", "#95A5A6"⟩

/-- `volumeWeight` step of `calculateCloutScore` (lines 221–227):
`Math.log10(Math.abs(absoluteGrowth) + 1)`. -/
noncomputable def volumeWeight (listenerAtAdd currentListeners : ℝ) : ℝ :=
  Real.logb 10 (|currentListeners - listenerAtAdd| + 1)

/-- `cappedMultiplier` step of `calculateCloutScore` (lines 233–243): the
tier multiplier, capped by the artist's eventual size. -/
noncomputable def cappedMultiplier (listenerAtAdd currentListeners : ℝ) : ℝ :=
  let earlyDiscoveryMultiplier := (tierOf listenerAtAdd).multiplier
  if currentListeners < 10000 then min earlyDiscoveryMultiplier 2
  else if currentListeners < 50000 then min earlyDiscoveryMultiplier 4
  else if currentListeners < 100000 then min earlyDiscoveryMultiplier 6
  else earlyDiscoveryMultiplier

/-- `relevanceFactor` step of `calculateCloutScore` (lines 249–253):
`Math.min((Math.log10(Math.max(currentListeners, 1)) + 3) / 10, 1)`. -/
noncomputable def relevanceFactor (currentListeners : ℝ) : ℝ :=
  min ((Real.logb 10 (max currentListeners 1) + 3) / 10) 1

/-- The breakdown record returned by `calculateCloutScore` (lines 258–271);
`volumeWeight`, `cappedMultiplier` and `relevanceFactor` are the display
values rounded to 2, 1 and 2 decimals respectively, as in the source. -/
structure ScoreBreakdown where
  score : ℤ
  inflationAdjustedGrowth : ℤ
  rawGrowth : ℝ
  absoluteGrowth : ℝ
  volumeWeight : ℝ
  earlyDiscoveryMultiplier : ℝ
  cappedMultiplier : ℝ
  relevanceFactor : ℝ
  discoveryTier : String
  tierEmoji : String
  tierColor : String
  listenersAtDiscovery : ℝ

/-- `calculateCloutScore` (src/artistToolsScraper.js, lines 150–272),
idealised real model (valid when `listenerAtAdd ≠ 0`):
`score = Math.round(inflationAdjustedGrowth × volumeWeight ×
cappedMultiplier × relevanceFactor)`, with no floor at zero. -/
noncomputable def calculateCloutScore
    (listenerAtAdd currentListeners addedDate now : ℝ) : ScoreBreakdown :=
  let inflationAdjustedGrowth :=
    calculateInflationAdjustedGrowth currentListeners listenerAtAdd addedDate now
  let tier := tierOf listenerAtAdd
  let absoluteGrowth := currentListeners - listenerAtAdd
  let vw := volumeWeight listenerAtAdd currentListeners
  let percentageScore := inflationAdjustedGrowth
  let capped := cappedMultiplier listenerAtAdd currentListeners
  let baseScore := percentageScore * vw * capped
  let relevance := relevanceFactor currentListeners
  let finalScore := baseScore * relevance
  { score := jsRound finalScore
    inflationAdjustedGrowth := jsRound inflationAdjustedGrowth
    rawGrowth := calculateGrowth currentListeners listenerAtAdd
    absoluteGrowth := absoluteGrowth
    volumeWeight := (jsRound (vw * 100) : ℝ) / 100
    earlyDiscoveryMultiplier := tier.multiplier
    cappedMultiplier := (jsRound (capped * 10) : ℝ) / 10
    relevanceFactor := (jsRound (relevance * 100) : ℝ) / 100
    discoveryTier := tier.name
    tierEmoji := tier.emoji
    tierColor := tier.color
    listenersAtDiscovery := listenerAtAdd }

namespace V1

/-- Breakdown returned by the earlier revision of `calculateCloutScore`
(src/unnamed/part_000, lines 185–192). -/
structure ScoreBreakdown where
  score : ℤ
  inflationAdjustedGrowth : ℤ
  rawGrowth : ℝ
  earlyDiscoveryMultiplier : ℝ
  discoveryTier : String
  listenersAtDiscovery : ℝ

/-- The 6-level tier ladder of the earlier revision
(src/unnamed/part_000, lines 158–177): multiplier and tier name. -/
noncomputable def tierOf (listenerAtAdd : ℝ) : ℝ × String :=
  if listenerAtAdd < 1000 then (10, "Underground Legend")
  else if listenerAtAdd < 10000 then (5, "Early Adopter")
  else if listenerAtAdd < 100000 then (3, "Ahead of Curve")
  else if listenerAtAdd < 1000000 then (2, "Rising Star Hunter")
  else if listenerAtAdd < 10000000 then (1.5, "Trending Finder")
  else (1, "Mainstream")

/-- `calculateCloutScore`, earlier revision (src/unnamed/part_000, lines
150–193): base score clamped at `Math.max(0, inflationAdjustedGrowth)`,
multiplied by the tier multiplier only — no volume weight, no cap, no
relevance factor. -/
noncomputable def calculateCloutScore
    (listenerAtAdd currentListeners addedDate now : ℝ) : ScoreBreakdown :=
  let inflationAdjustedGrowth :=
    calculateInflationAdjustedGrowth currentListeners listenerAtAdd addedDate now
  let tier := tierOf listenerAtAdd
  let baseScore := max 0 inflationAdjustedGrowth
  let finalScore := baseScore * tier.1
  { score := jsRound finalScore
    inflationAdjustedGrowth := jsRound inflationAdjustedGrowth
    rawGrowth := calculateGrowth currentListeners listenerAtAdd
    earlyDiscoveryMultiplier := tier.1
    discoveryTier := tier.2
    listenersAtDiscovery := listenerAtAdd }

end V1

/-!
IEEE-fidelity model.  `JsNum` carries the non-finite double values that the
real-number model cannot represent; every finite zero is modelled as `+0`.
Only the operations the scoring pipeline uses are defined.
-/

/-- A JavaScript number: NaN, a signed infinity, or a finite real. -/
inductive JsNum where
  | nan : JsNum
  | posInf : JsNum
  | negInf : JsNum
  | fin : ℝ → JsNum

/-- IEEE negation. -/
def jsNeg : JsNum → JsNum
  | .nan => .nan
  | .posInf => .negInf
  | .negInf => .posInf
  | .fin x => .fin (-x)

/-- IEEE addition (finite zeros treated as `+0`). -/
def jsAdd : JsNum → JsNum → JsNum
  | .nan, _ => .nan
  | _, .nan => .nan
  | .posInf, .negInf => .nan
  | .negInf, .posInf => .nan
  | .posInf, _ => .posInf
  | _, .posInf => .posInf
  | .negInf, _ => .negInf
  | _, .negInf => .negInf
  | .fin x, .fin y => .fin (x + y)

/-- IEEE subtraction, `x - y = x + (-y)`. -/
def jsSub (x y : JsNum) : JsNum :=
  jsAdd x (jsNeg y)

/-- IEEE multiplication. -/
noncomputable def jsMul : JsNum → JsNum → JsNum
  | .nan, _ => .nan
  | _, .nan => .nan
  | .posInf, .posInf => .posInf
  | .posInf, .negInf => .negInf
  | .negInf, .posInf => .negInf
  | .negInf, .negInf => .posInf
  | .posInf, .fin y => if y = 0 then .nan else if 0 < y then .posInf else .negInf
  | .fin x, .posInf => if x = 0 then .nan else if 0 < x then .posInf else .negInf
  | .negInf, .fin y => if y = 0 then .nan else if 0 < y then .negInf else .posInf
  | .fin x, .negInf => if x = 0 then .nan else if 0 < x then .negInf else .posInf
  | .fin x, .fin y => .fin (x * y)

/-- IEEE division (finite zeros treated as `+0`): `x / 0` is `NaN` when
`x = 0` and a signed infinity otherwise. -/
noncomputable def jsDiv : JsNum → JsNum → JsNum
  | .nan, _ => .nan
  | _, .nan => .nan
  | .posInf, .posInf => .nan
  | .posInf, .negInf => .nan
  | .negInf, .posInf => .nan
  | .negInf, .negInf => .nan
  | .posInf, .fin y => if 0 ≤ y then .posInf else .negInf
  | .negInf, .fin y => if 0 ≤ y then .negInf else .posInf
  | .fin _, .posInf => .fin 0
  | .fin _, .negInf => .fin 0
  | .fin x, .fin y =>
    if y = 0 then (if x = 0 then .nan else if 0 < x then .posInf else .negInf)
    else .fin (x / y)

/-- JS `Math.round` on doubles: NaN and infinities pass through. -/
noncomputable def jsRoundNum : JsNum → JsNum
  | .nan => .nan
  | .posInf => .posInf
  | .negInf => .negInf
  | .fin x => .fin (jsRound x : ℤ)

/-- `calculateInflationAdjustedGrowth` at IEEE fidelity: the same arithmetic
as the real model, with each float operation on the `past` baseline routed
through `JsNum` so that `past = 0` produces `±∞`/`NaN` instead of Lean's
`x / 0 = 0`.  The platform inflation `1.013 ^ monthsAgo` is a strictly
positive finite double for every exponent. -/
noncomputable def calculateInflationAdjustedGrowthJs
    (currentListeners pastListeners addedDate now : ℝ) : JsNum :=
  let spotifyGrowthRate : ℝ := 0.013
  let platformInflation := (1 + spotifyGrowthRate) ^ monthsAgo addedDate now
  let inflationAdjustedCurrent :=
    jsDiv (.fin currentListeners) (.fin platformInflation)
  jsMul
    (jsDiv (jsSub inflationAdjustedCurrent (.fin pastListeners)) (.fin pastListeners))
    (.fin 100)

/-- The `score` field of `calculateCloutScore` at IEEE fidelity: the same
product chain as the real model, with the inflation-adjusted growth factor
carried as a `JsNum` so its non-finite values propagate into the score. -/
noncomputable def calculateCloutScoreJs
    (listenerAtAdd currentListeners addedDate now : ℝ) : JsNum :=
  let inflationAdjustedGrowth :=
    calculateInflationAdjustedGrowthJs currentListeners listenerAtAdd addedDate now
  let baseScore :=
    jsMul (jsMul inflationAdjustedGrowth (.fin (volumeWeight listenerAtAdd currentListeners)))
      (.fin (cappedMultiplier listenerAtAdd currentListeners))
  jsRoundNum (jsMul baseScore (.fin (relevanceFactor currentListeners)))

/-!
Spec-side tier table.  The specification describes tier classification as an
ordered table of `(upper_bound_exclusive, multiplier, tier_name)` rows with
first-match-wins lookup; this pair of definitions follows the spec's words
and is compared against the source's if/else ladder `tierOf`.
-/

/-- The spec's tier table, each row `(upper_bound_exclusive, multiplier,
tier_name)`. -/
noncomputable def tierTable : List (ℝ × ℝ × String) :=
  [(100, 20, "Bedroom Producer"),
   (500, 15, "Soundcloud Rapper"),
   (1000, 12, "Underground Legend"),
   (5000, 8, "Local Hero"),
   (10000, 6, "Early Adopter"),
   (50000, 4, "Tastemaker"),
   (100000, 3, "Ahead of Curve"),
   (500000, 2.5, "Indie Enthusiast"),
   (1000000, 2, "Rising Star Hunter"),
   (5000000, 1.5, "Trending Finder"),
   (10000000, 1.2, "Popular Follower")]

/-- Spec-side lookup: the first table row whose strictly-less-than upper
bound the value satisfies, defaulting to `(1, "Mainstream")`. -/
noncomputable def lookupTier (x : ℝ) : List (ℝ × ℝ × String) → ℝ × String
  | [] => (1, "Mainstream")
  | (bound, m, tierName) :: rest =>
    if x < bound then (m, tierName) else lookupTier x rest

/-!
Playlist aggregation (src/server.js).  Both endpoints run the scorer over
the valid tracks of a playlist and reduce the integer per-track scores; the
models below abstract the network-fetch layer into a list of observations
(`none` for an entry the endpoint skips: missing track payload, missing
artist list, or missing artist id).
-/

/-- One scoreable playlist entry as seen by the aggregation loop. -/
structure TrackObservation where
  artistId : String
  currentFollowers : ℝ
  addedAt : ℝ

/-- JS descending sort by score, `cloutData.sort((a, b) => b.cloutScore -
a.cloutScore)`: stable insertion sort, larger scores first. -/
def insertDesc (a : ℤ) : List ℤ → List ℤ
  | [] => [a]
  | b :: rest => if b < a then a :: b :: rest else b :: insertDesc a rest

/-- Stable descending sort of the per-track scores. -/
def sortDesc : List ℤ → List ℤ
  | [] => []
  | a :: rest => insertDesc a (sortDesc rest)

/-- Per-track scoring step shared by both endpoints: estimate the listeners
when the track was added, then score the discovery. -/
noncomputable def scoreObservation (now : ℝ) (o : TrackObservation) : ℤ :=
  let estimatedListenersWhenAdded :=
    estimateListenersAtDate o.currentFollowers o.addedAt now
  (calculateCloutScore (estimatedListenersWhenAdded : ℝ) o.currentFollowers
    o.addedAt now).score

/-- The playlist summary of `POST /api/analyze-public-playlist`
(src/server.js, lines 813–833), statistics kept before display rounding. -/
structure PlaylistSummary where
  trackCount : ℕ
  totalClout : ℤ
  averageClout : ℝ
  normalizedScore : ℝ
  tracks : List ℤ

/-- Aggregation of `POST /api/analyze-public-playlist` over the per-track
scores (src/server.js, lines 796–833): zero scoreable tracks is a
caller-visible "no valid tracks" error, otherwise sum, mean and
`mean × √count`. -/
noncomputable def aggregatePublicScores (scores : List ℤ) : Except String PlaylistSummary :=
  if scores.length = 0 then
    .error "No valid tracks found in playlist. Playlist may contain only podcasts or local files."
  else
    let totalClout := scores.sum
    let averageClout : ℝ := (totalClout : ℝ) / (scores.length : ℝ)
    let normalizedScore := averageClout * Real.sqrt (scores.length : ℝ)
    .ok { trackCount := scores.length
          totalClout := totalClout
          averageClout := averageClout
          normalizedScore := normalizedScore
          tracks := sortDesc scores }

/-- The `POST /api/analyze-public-playlist` pipeline (src/server.js, lines
732–833): skip the unscoreable entries, score the rest, aggregate. -/
noncomputable def analyzePublicPlaylist (now : ℝ)
    (items : List (Option TrackObservation)) : Except String PlaylistSummary :=
  aggregatePublicScores ((items.filterMap id).map (scoreObservation now))

/-- The response of `POST /api/calculate-clout` (src/server.js, lines
606–624); its average and normalized score are IEEE doubles with no
empty-playlist guard, so they are carried as `JsNum`. -/
structure CalcCloutSummary where
  trackCount : ℕ
  totalClout : ℤ
  averageClout : JsNum
  normalizedScore : JsNum
  tracks : List ℤ

/-- Aggregation of `POST /api/calculate-clout` over the per-track scores
(src/server.js, lines 606–624): no guard on an empty score list — the
summary is produced unconditionally, with `averageClout = total / count`
evaluated as an IEEE division. -/
noncomputable def aggregateCalcCloutScores (scores : List ℤ) : CalcCloutSummary :=
  let totalClout := scores.sum
  let averageClout := jsDiv (.fin (totalClout : ℝ)) (.fin (scores.length : ℝ))
  let normalizedScore := jsMul averageClout (.fin (Real.sqrt (scores.length : ℝ)))
  { trackCount := scores.length
    totalClout := totalClout
    averageClout := averageClout
    normalizedScore := normalizedScore
    tracks := sortDesc scores }

/-- The `POST /api/calculate-clout` pipeline (src/server.js, lines
553–629): skip entries without a track payload or artist list, score the
rest, aggregate without an empty-result guard. -/
noncomputable def calculateCloutEndpoint (now : ℝ)
    (items : List (Option TrackObservation)) : CalcCloutSummary :=
  aggregateCalcCloutScores ((items.filterMap id).map (scoreObservation now))

/-- `reduce((sum, item) => sum + item.cloutScore, 0)` at IEEE fidelity. -/
noncomputable def jsSum (scores : List JsNum) : JsNum :=
  scores.foldl jsAdd (.fin 0)

/-- The `POST /api/analyze-public-playlist` totals at IEEE fidelity: the
per-track scores are doubles (possibly NaN), and the totals are computed
with IEEE addition, division and multiplication. -/
structure JsSummary where
  trackCount : ℕ
  totalClout : JsNum
  averageClout : JsNum
  normalizedScore : JsNum
  tracks : List JsNum

/-- Aggregation of `POST /api/analyze-public-playlist` at IEEE fidelity
(src/server.js, lines 796–833).  The source's descending sort comparator
`b.cloutScore - a.cloutScore` is not a consistent comparison when scores
are NaN, so the tracks are kept in input order here. -/
noncomputable def aggregatePublicJs (scores : List JsNum) : Except String JsSummary :=
  if scores.length = 0 then
    .error "No valid tracks found in playlist. Playlist may contain only podcasts or local files."
  else
    let totalClout := jsSum scores
    let averageClout := jsDiv totalClout (.fin (scores.length : ℝ))
    let normalizedScore := jsMul averageClout (.fin (Real.sqrt (scores.length : ℝ)))
    .ok { trackCount := scores.length
          totalClout := totalClout
          averageClout := averageClout
          normalizedScore := normalizedScore
          tracks := scores }

/-- Per-track scoring step at IEEE fidelity. -/
noncomputable def scoreObservationJs (now : ℝ) (o : TrackObservation) : JsNum :=
  let estimatedListenersWhenAdded :=
    estimateListenersAtDate o.currentFollowers o.addedAt now
  calculateCloutScoreJs (estimatedListenersWhenAdded : ℝ) o.currentFollowers
    o.addedAt now

/-- The `POST /api/analyze-public-playlist` pipeline at IEEE fidelity. -/
noncomputable def analyzePublicPlaylistJs (now : ℝ)
    (items : List (Option TrackObservation)) : Except String JsSummary :=
  aggregatePublicJs ((items.filterMap id).map (scoreObservationJs now))

/-- The mutable state of the `ArtistToolsScraper` class instance
(src/artistToolsScraper.js, lines 10–14): the base URL and the
`getHistoricalData` cache, keyed by Spotify artist id (`κ` is the type of
the cached payloads). -/
structure ScraperState (κ : Type) where
  baseUrl : String
  cache : List (String × κ)

/-- `calculateCloutScore` as a method on the scraper instance: the body
reads none of the instance state and writes none of it, so the translation
threads the state through unchanged. -/
noncomputable def calculateCloutScoreSt {κ : Type} (st : ScraperState κ)
    (listenerAtAdd currentListeners addedDate now : ℝ) :
    ScraperState κ × ScoreBreakdown :=
  (st, calculateCloutScore listenerAtAdd currentListeners addedDate now)

/-! Reduction lemmas for the `JsNum` operations. -/

theorem jsAdd_nan_left (y : JsNum) : jsAdd .nan y = .nan := by
  cases y <;> rfl

theorem jsAdd_nan_right (x : JsNum) : jsAdd x .nan = .nan := by
  cases x <;> rfl

theorem jsAdd_fin_fin (x y : ℝ) : jsAdd (.fin x) (.fin y) = .fin (x + y) := rfl

theorem jsSub_fin_fin (x y : ℝ) : jsSub (.fin x) (.fin y) = .fin (x + -y) := rfl

theorem jsMul_nan_left (y : JsNum) : jsMul .nan y = .nan := by
  cases y <;> rfl

theorem jsMul_fin_fin (x y : ℝ) : jsMul (.fin x) (.fin y) = .fin (x * y) := rfl

theorem jsMul_posInf_fin (y : ℝ) :
    jsMul .posInf (.fin y) = if y = 0 then .nan else if 0 < y then .posInf else .negInf := rfl

theorem jsDiv_nan_left (y : JsNum) : jsDiv .nan y = .nan := by
  cases y <;> rfl

theorem jsDiv_fin_fin (x y : ℝ) :
    jsDiv (.fin x) (.fin y) =
      if y = 0 then (if x = 0 then .nan else if 0 < x then .posInf else .negInf)
      else .fin (x / y) := rfl

theorem jsDiv_fin_fin_of_ne (x y : ℝ) (hy : y ≠ 0) :
    jsDiv (.fin x) (.fin y) = .fin (x / y) := by
  rw [jsDiv_fin_fin, if_neg hy]

theorem jsRoundNum_nan : jsRoundNum .nan = .nan := rfl

theorem jsSum_cons (a : JsNum) (l : List JsNum) :
    jsSum (a :: l) = l.foldl jsAdd (jsAdd (.fin 0) a) := rfl

theorem foldl_jsAdd_nan (l : List JsNum) : l.foldl jsAdd .nan = .nan := by
  induction l with
  | nil => rfl
  | cons a l ih => rw [List.foldl_cons, jsAdd_nan_left, ih]

theorem foldl_jsAdd_eq_nan_of_mem :
    ∀ (l : List JsNum) (acc : JsNum), .nan ∈ l → l.foldl jsAdd acc = .nan := by
  intro l
  induction l with
  | nil => intro acc h; cases h
  | cons a l ih =>
    intro acc h
    rcases List.mem_cons.mp h with rfl | hmem
    · rw [List.foldl_cons, jsAdd_nan_right, foldl_jsAdd_nan]
    · rw [List.foldl_cons]
      exact ih _ hmem

theorem jsSum_eq_nan {l : List JsNum} (h : .nan ∈ l) : jsSum l = .nan :=
  foldl_jsAdd_eq_nan_of_mem l _ h

/-! Bounds for the JS rounding function. -/

theorem jsRound_nonneg {x : ℝ} (h : 0 ≤ x) : 0 ≤ jsRound x := by
  unfold jsRound
  exact Int.le_floor.mpr (by push_cast; linarith)

theorem jsRound_nonpos {x : ℝ} (h : x < 1 / 2) : jsRound x ≤ 0 := by
  unfold jsRound
  exact Int.lt_add_one_iff.mp (Int.floor_lt.mpr (by push_cast; linarith))

theorem jsRound_neg {x : ℝ} (h : x + 1 / 2 < 0) : jsRound x < 0 := by
  unfold jsRound
  exact Int.floor_lt.mpr (by push_cast; linarith)

theorem jsRound_eq_zero {x : ℝ} (h₀ : -(1 / 2) ≤ x) (h₁ : x < 1 / 2) : jsRound x = 0 := by
  unfold jsRound
  rw [Int.floor_eq_zero_iff]
  exact Set.mem_Ico.mpr ⟨by linarith, by linarith⟩

/-! Arithmetic facts about the scoring steps. -/

theorem tierOf_multiplier_pos (x : ℝ) : 0 < (tierOf x).multiplier := by
  unfold tierOf
  by_cases h1 : x < 100
  · simp only [if_pos h1]; norm_num
  simp only [if_neg h1]
  by_cases h2 : x < 500
  · simp only [if_pos h2]; norm_num
  simp only [if_neg h2]
  by_cases h3 : x < 1000
  · simp only [if_pos h3]; norm_num
  simp only [if_neg h3]
  by_cases h4 : x < 5000
  · simp only [if_pos h4]; norm_num
  simp only [if_neg h4]
  by_cases h5 : x < 10000
  · simp only [if_pos h5]; norm_num
  simp only [if_neg h5]
  by_cases h6 : x < 50000
  · simp only [if_pos h6]; norm_num
  simp only [if_neg h6]
  by_cases h7 : x < 100000
  · simp only [if_pos h7]; norm_num
  simp only [if_neg h7]
  by_cases h8 : x < 500000
  · simp only [if_pos h8]; norm_num
  simp only [if_neg h8]
  by_cases h9 : x < 1000000
  · simp only [if_pos h9]; norm_num
  simp only [if_neg h9]
  by_cases h10 : x < 5000000
  · simp only [if_pos h10]; norm_num
  simp only [if_neg h10]
  by_cases h11 : x < 10000000
  · simp only [if_pos h11]; norm_num
  simp only [if_neg h11]; norm_num

theorem cappedMultiplier_pos (listenerAtAdd currentListeners : ℝ) :
    0 < cappedMultiplier listenerAtAdd currentListeners := by
  have h := tierOf_multiplier_pos listenerAtAdd
  unfold cappedMultiplier
  by_cases h1 : currentListeners < 10000
  · simp only [if_pos h1, lt_min_iff]; exact ⟨h, by norm_num⟩
  simp only [if_neg h1]
  by_cases h2 : currentListeners < 50000
  · simp only [if_pos h2, lt_min_iff]; exact ⟨h, by norm_num⟩
  simp only [if_neg h2]
  by_cases h3 : currentListeners < 100000
  · simp only [if_pos h3, lt_min_iff]; exact ⟨h, by norm_num⟩
  simp only [if_neg h3]; exact h

theorem relevanceFactor_lb (currentListeners : ℝ) :
    3 / 10 ≤ relevanceFactor currentListeners := by
  unfold relevanceFactor
  refine le_min ?_ (by norm_num)
  have h := Real.logb_nonneg (b := 10) (by norm_num) (le_max_right currentListeners 1)
  linarith

theorem relevanceFactor_pos (currentListeners : ℝ) :
    0 < relevanceFactor currentListeners :=
  lt_of_lt_of_le (by norm_num) (relevanceFactor_lb currentListeners)

theorem relevanceFactor_le_one (currentListeners : ℝ) :
    relevanceFactor currentListeners ≤ 1 :=
  min_le_right _ _

theorem volumeWeight_pos (listenerAtAdd currentListeners : ℝ)
    (h : currentListeners - listenerAtAdd ≠ 0) :
    0 < volumeWeight listenerAtAdd currentListeners := by
  unfold volumeWeight
  have habs : 0 < |currentListeners - listenerAtAdd| := abs_pos.mpr h
  exact Real.logb_pos (by norm_num) (by linarith)

theorem volumeWeight_nonneg (listenerAtAdd currentListeners : ℝ) :
    0 ≤ volumeWeight listenerAtAdd currentListeners := by
  unfold volumeWeight
  have := abs_nonneg (currentListeners - listenerAtAdd)
  exact Real.logb_nonneg (by norm_num) (by linarith)

theorem monthsAgo_self (t : ℝ) : monthsAgo t t = 0 := by
  unfold monthsAgo
  rw [sub_self, zero_div]

theorem calculateInflationAdjustedGrowth_now (c p t : ℝ) :
    calculateInflationAdjustedGrowth c p t t = (c - p) / p * 100 := by
  simp only [calculateInflationAdjustedGrowth, monthsAgo_self, Real.rpow_zero, div_one]

theorem calculateCloutScore_score (listenerAtAdd currentListeners addedDate now : ℝ) :
    (calculateCloutScore listenerAtAdd currentListeners addedDate now).score
      = jsRound (calculateInflationAdjustedGrowth currentListeners listenerAtAdd addedDate now
          * volumeWeight listenerAtAdd currentListeners
          * cappedMultiplier listenerAtAdd currentListeners
          * relevanceFactor currentListeners) := rfl

/-! Concrete evaluations of the tier ladder and the scoring steps. -/

theorem tierOf_500 : tierOf 500 = ⟨12, "Underground Legend", "🔥", "#FFD700"⟩ := by
  unfold tierOf
  rw [if_neg (by norm_num), if_neg (by norm_num), if_pos (by norm_num)]

theorem tierOf_1000 : tierOf 1000 = ⟨8, "Local Hero", "⭐", "#FFA500"⟩ := by
  unfold tierOf
  rw [if_neg (by norm_num), if_neg (by norm_num), if_neg (by norm_num),
    if_pos (by norm_num)]

theorem tierOf_100000 : tierOf 100000 = ⟨2.5, "Indie Enthusiast", "🎸", "#16A085"⟩ := by
  unfold tierOf
  rw [if_neg (by norm_num), if_neg (by norm_num), if_neg (by norm_num),
    if_neg (by norm_num), if_neg (by norm_num), if_neg (by norm_num),
    if_neg (by norm_num), if_pos (by norm_num)]

theorem cappedMultiplier_500_2000000 : cappedMultiplier 500 2000000 = 12 := by
  unfold cappedMultiplier
  rw [if_neg (by norm_num), if_neg (by norm_num), if_neg (by norm_num), tierOf_500]

theorem cappedMultiplier_1000_999 : cappedMultiplier 1000 999 = 2 := by
  unfold cappedMultiplier
  rw [if_pos (by norm_num), tierOf_1000]
  exact min_eq_right (by norm_num)

theorem cappedMultiplier_100000_10 : cappedMultiplier 100000 10 = 2 := by
  unfold cappedMultiplier
  rw [if_pos (by norm_num), tierOf_100000]
  exact min_eq_right (by norm_num)

theorem relevanceFactor_10 : relevanceFactor 10 = 2 / 5 := by
  unfold relevanceFactor
  rw [max_eq_left (by norm_num), Real.logb_self_eq_one (by norm_num)]
  rw [min_eq_left (by norm_num)]
  norm_num

theorem logb_ten_two_le_one : Real.logb 10 2 ≤ 1 := by
  have h := Real.logb_le_logb_of_le (b := 10) (by norm_num) (x := 2) (by norm_num)
    (y := 10) (by norm_num)
  rwa [Real.logb_self_eq_one (by norm_num)] at h

theorem volumeWeight_1000_999 : volumeWeight 1000 999 = Real.logb 10 2 := by
  unfold volumeWeight
  norm_num

theorem volumeWeight_100000_10_ge_one : 1 ≤ volumeWeight 100000 10 := by
  unfold volumeWeight
  rw [abs_of_nonpos (by norm_num)]
  have h := Real.logb_le_logb_of_le (b := 10) (by norm_num) (x := 10) (by norm_num)
    (y := -(10 - 100000) + 1) (by norm_num)
  rwa [Real.logb_self_eq_one (by norm_num)] at h

theorem tierOf_eq_lookup (x : ℝ) :
    ((tierOf x).multiplier, (tierOf x).name) = lookupTier x tierTable := by
  unfold tierOf tierTable
  simp only [lookupTier]
  by_cases h1 : x < 100
  · simp only [if_pos h1]
  simp only [if_neg h1]
  by_cases h2 : x < 500
  · simp only [if_pos h2]
  simp only [if_neg h2]
  by_cases h3 : x < 1000
  · simp only [if_pos h3]
  simp only [if_neg h3]
  by_cases h4 : x < 5000
  · simp only [if_pos h4]
  simp only [if_neg h4]
  by_cases h5 : x < 10000
  · simp only [if_pos h5]
  simp only [if_neg h5]
  by_cases h6 : x < 50000
  · simp only [if_pos h6]
  simp only [if_neg h6]
  by_cases h7 : x < 100000
  · simp only [if_pos h7]
  simp only [if_neg h7]
  by_cases h8 : x < 500000
  · simp only [if_pos h8]
  simp only [if_neg h8]
  by_cases h9 : x < 1000000
  · simp only [if_pos h9]
  simp only [if_neg h9]
  by_cases h10 : x < 5000000
  · simp only [if_pos h10]
  simp only [if_neg h10]
  by_cases h11 : x < 10000000
  · simp only [if_pos h11]
  simp only [if_neg h11]

/-- C2: tier classification is a total deterministic function on listener
counts, equal at every input to the first-match lookup in the spec's
`(upper_bound_exclusive, multiplier, tier_name)` table; in particular
`listeners_at_add = 500` classifies as "Underground Legend" with multiplier
12, and with `current_listeners = 2,000,000 ≥ 100,000` the multiplier is
uncapped, so `capped_multiplier = 12`. -/
theorem tier_classification_total_first_match :
    (∀ x : ℝ, ((tierOf x).multiplier, (tierOf x).name) = lookupTier x tierTable)
    ∧ (tierOf 500).multiplier = 12
    ∧ (tierOf 500).name = "Underground Legend"
    ∧ cappedMultiplier 500 2000000 = 12 :=
  ⟨tierOf_eq_lookup, by rw [tierOf_500], by rw [tierOf_500], cappedMultiplier_500_2000000⟩

/-- C7: for every non-negative integer `current_listeners`, the relevance
factor equals `min((log10(max(current_listeners, 1)) + 3) / 10, 1)` and lies
in `[0.3, 1]`; at `current_listeners = 0` and `1` it equals `0.3`. -/
theorem relevance_factor_formula_and_range :
    (∀ n : ℕ, relevanceFactor (n : ℝ)
        = min ((Real.logb 10 (max (n : ℝ) 1) + 3) / 10) 1
      ∧ 0.3 ≤ relevanceFactor (n : ℝ)
      ∧ relevanceFactor (n : ℝ) ≤ 1)
    ∧ relevanceFactor 0 = 0.3
    ∧ relevanceFactor 1 = 0.3 := by
  have h01 : relevanceFactor 0 = 0.3 := by
    unfold relevanceFactor
    rw [max_eq_right (by norm_num), Real.logb_one, min_eq_left (by norm_num)]
    norm_num
  have h11 : relevanceFactor 1 = 0.3 := by
    unfold relevanceFactor
    rw [max_eq_right (by norm_num), Real.logb_one, min_eq_left (by norm_num)]
    norm_num
  refine ⟨fun n => ⟨rfl, ?_, relevanceFactor_le_one _⟩, h01, h11⟩
  have := relevanceFactor_lb (n : ℝ)
  linarith

/-- C8: scoring is deterministic — run on the scraper instance state, the
clout-score method leaves the state untouched, its breakdown does not depend
on the cache contents, and two successive evaluations on the same inputs
under the same ambient time return identical breakdowns. -/
theorem clout_score_deterministic :
    ∀ (κ : Type) (st st' : ScraperState κ)
      (listenerAtAdd currentListeners addedDate now : ℝ),
      (calculateCloutScoreSt st listenerAtAdd currentListeners addedDate now).1 = st
      ∧ (calculateCloutScoreSt st listenerAtAdd currentListeners addedDate now).2
        = (calculateCloutScoreSt st' listenerAtAdd currentListeners addedDate now).2
      ∧ (calculateCloutScoreSt
            (calculateCloutScoreSt st listenerAtAdd currentListeners addedDate now).1
            listenerAtAdd currentListeners addedDate now).2
        = (calculateCloutScoreSt st listenerAtAdd currentListeners addedDate now).2 :=
  fun _ _ _ _ _ _ _ => ⟨rfl, rfl, rfl⟩

/-! Helpers for the earlier scoring revision. -/

theorem V1_tierOf_fst_pos (x : ℝ) : 0 < (V1.tierOf x).1 := by
  unfold V1.tierOf
  by_cases h1 : x < 1000
  · simp only [if_pos h1]; norm_num
  simp only [if_neg h1]
  by_cases h2 : x < 10000
  · simp only [if_pos h2]; norm_num
  simp only [if_neg h2]
  by_cases h3 : x < 100000
  · simp only [if_pos h3]; norm_num
  simp only [if_neg h3]
  by_cases h4 : x < 1000000
  · simp only [if_pos h4]; norm_num
  simp only [if_neg h4]
  by_cases h5 : x < 10000000
  · simp only [if_pos h5]; norm_num
  simp only [if_neg h5]; norm_num

theorem V1_calculateCloutScore_score (listenerAtAdd currentListeners addedDate now : ℝ) :
    (V1.calculateCloutScore listenerAtAdd currentListeners addedDate now).score
      = jsRound (max 0 (calculateInflationAdjustedGrowth currentListeners listenerAtAdd
          addedDate now) * (V1.tierOf listenerAtAdd).1) := rfl

/-- C1 (amended): the returned score equals
`round(inflation_adjusted_growth × log10(|current − past| + 1) ×
capped_multiplier × relevance_factor)` with no floor at zero, and whenever
the inflation-adjusted growth is negative and the absolute growth nonzero,
the pre-rounding product is strictly negative and the returned score is
`≤ 0` — the rounding can still lift a product in `(−1/2, 0)` to exactly 0. -/
theorem score_formula_no_floor :
    ∀ listenerAtAdd currentListeners addedDate now : ℝ,
      (calculateCloutScore listenerAtAdd currentListeners addedDate now).score
        = jsRound (calculateInflationAdjustedGrowth currentListeners listenerAtAdd addedDate now
            * Real.logb 10 (|currentListeners - listenerAtAdd| + 1)
            * cappedMultiplier listenerAtAdd currentListeners
            * relevanceFactor currentListeners)
      ∧ (calculateInflationAdjustedGrowth currentListeners listenerAtAdd addedDate now < 0 →
          currentListeners - listenerAtAdd ≠ 0 →
          calculateInflationAdjustedGrowth currentListeners listenerAtAdd addedDate now
              * Real.logb 10 (|currentListeners - listenerAtAdd| + 1)
              * cappedMultiplier listenerAtAdd currentListeners
              * relevanceFactor currentListeners < 0
            ∧ (calculateCloutScore listenerAtAdd currentListeners addedDate now).score ≤ 0) := by
  intro p c a n
  constructor
  · exact calculateCloutScore_score p c a n
  · intro hg hne
    have hvw : 0 < volumeWeight p c := volumeWeight_pos p c hne
    have hcm := cappedMultiplier_pos p c
    have hrf := relevanceFactor_pos c
    have hprod : calculateInflationAdjustedGrowth c p a n * volumeWeight p c
        * cappedMultiplier p c * relevanceFactor c < 0 :=
      mul_neg_of_neg_of_pos
        (mul_neg_of_neg_of_pos (mul_neg_of_neg_of_pos hg hvw) hcm) hrf
    refine ⟨hprod, ?_⟩
    rw [calculateCloutScore_score]
    exact jsRound_nonpos (by linarith)

/-- C1 counterexample: with `listeners_at_add = 1000`, `current_listeners =
999` and the track scored at its add time, the inflation-adjusted growth is
−0.1%, the absolute growth is −1 ≠ 0, yet the returned score is 0 — not
negative — because rounding lifts the tiny negative product to 0. -/
theorem score_no_floor_counterexample :
    calculateInflationAdjustedGrowth 999 1000 0 0 < 0
    ∧ (999 : ℝ) - 1000 ≠ 0
    ∧ (calculateCloutScore 1000 999 0 0).score = 0 := by
  have hg : calculateInflationAdjustedGrowth 999 1000 0 0 = -(1 / 10) := by
    rw [calculateInflationAdjustedGrowth_now]; norm_num
  refine ⟨by rw [hg]; norm_num, by norm_num, ?_⟩
  rw [calculateCloutScore_score]
  rw [hg, volumeWeight_1000_999, cappedMultiplier_1000_999]
  have hl0 : 0 ≤ Real.logb 10 2 := Real.logb_nonneg (by norm_num) (by norm_num)
  have hl1 := logb_ten_two_le_one
  have hr0 : 0 ≤ relevanceFactor 999 := le_of_lt (relevanceFactor_pos 999)
  have hr1 := relevanceFactor_le_one 999
  apply jsRound_eq_zero
  · nlinarith
  · nlinarith

/-- C1 witness: the amended theorem applied at the counterexample's input. -/
theorem score_formula_no_floor_witness :
    calculateInflationAdjustedGrowth 999 1000 0 0 < 0
    ∧ (999 : ℝ) - 1000 ≠ 0
    ∧ calculateInflationAdjustedGrowth 999 1000 0 0
        * Real.logb 10 (|(999:ℝ) - 1000| + 1)
        * cappedMultiplier 1000 999 * relevanceFactor 999 < 0
    ∧ (calculateCloutScore 1000 999 0 0).score ≤ 0 := by
  have hg : calculateInflationAdjustedGrowth 999 1000 0 0 < 0 := by
    rw [calculateInflationAdjustedGrowth_now]; norm_num
  have hne : (999 : ℝ) - 1000 ≠ 0 := by norm_num
  obtain ⟨h1, h2⟩ := (score_formula_no_floor 1000 999 0 0).2 hg hne
  exact ⟨hg, hne, h1, h2⟩

/-- C10: the two revisions of `calculateCloutScore` are not extensionally
equal — the earlier revision clamps the base score at `max(0, growth)` so
its score is never negative (on the domain where the growth is a real
number, `listeners_at_add ≠ 0`), while the current revision returns a
strictly negative score for a declining artist, e.g. at
`(listeners_at_add, current_listeners) = (100000, 10)` scored at add time. -/
theorem revisions_not_equivalent :
    (∀ listenerAtAdd currentListeners addedDate now : ℝ, listenerAtAdd ≠ 0 →
        0 ≤ (V1.calculateCloutScore listenerAtAdd currentListeners addedDate now).score)
    ∧ (calculateCloutScore 100000 10 0 0).score < 0
    ∧ (V1.calculateCloutScore 100000 10 0 0).score
        ≠ (calculateCloutScore 100000 10 0 0).score := by
  have hg : calculateInflationAdjustedGrowth 10 100000 0 0 = -(9999 / 100) := by
    rw [calculateInflationAdjustedGrowth_now]; norm_num
  have hv2 : (calculateCloutScore 100000 10 0 0).score < 0 := by
    rw [calculateCloutScore_score]
    rw [hg, cappedMultiplier_100000_10, relevanceFactor_10]
    have hv := volumeWeight_100000_10_ge_one
    apply jsRound_neg
    nlinarith
  have hv1 : (V1.calculateCloutScore 100000 10 0 0).score = 0 := by
    rw [V1_calculateCloutScore_score, hg, max_eq_left (by norm_num), zero_mul]
    exact jsRound_eq_zero (by norm_num) (by norm_num)
  refine ⟨?_, hv2, by rw [hv1]; exact (ne_of_lt hv2).symm⟩
  intro p c a n _
  rw [V1_calculateCloutScore_score]
  exact jsRound_nonneg
    (mul_nonneg (le_max_left 0 _) (le_of_lt (V1_tierOf_fst_pos p)))

/-- C10 witness: the first conjunct of the theorem applied at the concrete
differing input. -/
theorem revisions_not_equivalent_witness :
    (100000 : ℝ) ≠ 0
    ∧ 0 ≤ (V1.calculateCloutScore 100000 10 0 0).score := by
  refine ⟨by norm_num, ?_⟩
  exact revisions_not_equivalent.1 100000 10 0 0 (by norm_num)

/-! Evaluation of the estimator at the 12-months-ago scenario.  The
timestamp `31104000000` is exactly `12 × (1000*60*60*24*30)` ms, so a track
added at time 0 and scored at that time is 12 fractional months old. -/

theorem monthsAgo_12 : monthsAgo 0 31104000000 = 12 := by
  unfold monthsAgo
  norm_num

theorem rpow_1043_12 : (1.043 : ℝ) ^ (12 : ℝ) = (1.043 : ℝ) ^ (12 : ℕ) := by
  rw [show ((12:ℝ)) = ((12:ℕ):ℝ) by norm_num, Real.rpow_natCast]

theorem estimate_10000_12 : estimateListenersAtDate 10000 0 31104000000 = 6033 := by
  simp only [estimateListenersAtDate]
  rw [if_neg (by norm_num : ¬(10000:ℝ) < 10000), if_pos (by norm_num : (10000:ℝ) < 100000)]
  rw [monthsAgo_12]
  have hb : (1 + ((0.03 : ℝ) + 0.013)) = 1.043 := by norm_num
  rw [hb, rpow_1043_12]
  have hpos : (0:ℝ) < 1.043 ^ (12:ℕ) := by positivity
  rw [Int.floor_eq_iff]
  constructor
  · rw [le_div_iff₀ hpos]; norm_num
  · rw [div_lt_iff₀ hpos]; push_cast; norm_num

/-- C6 (amended): for `current_listeners = 10000` and an `added_date` exactly
12 months before `now`, the estimator selects the 3% bracket (10000 is not
`< 10000`, and is `< 100000`), the combined monthly rate is 4.3%, and the
result is `floor(10000 / 1.043^12) = 6033` — the spec's `1.043^12 ≈ 1.693 ⇒
≈ 5908` is an arithmetic slip, the true value of `1.043^12` is below 1.66. -/
theorem estimator_12_month_scenario :
    estimateListenersAtDate 10000 0 31104000000 = 6033
    ∧ monthsAgo 0 31104000000 = 12
    ∧ estimateListenersAtDate 10000 0 31104000000 = ⌊(10000 : ℝ) / 1.043 ^ (12 : ℝ)⌋
    ∧ ¬ ((10000 : ℝ) < 10000)
    ∧ ((10000 : ℝ) < 100000) := by
  have hfl : ⌊(10000 : ℝ) / 1.043 ^ (12 : ℝ)⌋ = 6033 := by
    rw [rpow_1043_12]
    have hpos : (0:ℝ) < 1.043 ^ (12:ℕ) := by positivity
    rw [Int.floor_eq_iff]
    constructor
    · rw [le_div_iff₀ hpos]; norm_num
    · rw [div_lt_iff₀ hpos]; push_cast; norm_num
  exact ⟨estimate_10000_12, monthsAgo_12, by rw [estimate_10000_12, hfl],
    by norm_num, by norm_num⟩

/-- C6 counterexample: the estimator returns 6033, not approximately 5908,
at the claim's scenario — and `1.043^12 < 1.66`, refuting the claimed
`1.043^12 ≈ 1.693`. -/
theorem estimator_12_month_counterexample :
    estimateListenersAtDate 10000 0 31104000000 = 6033
    ∧ (6033 : ℤ) ≠ 5908
    ∧ (1.043 : ℝ) ^ (12 : ℝ) < 1.66 := by
  refine ⟨estimate_10000_12, by norm_num, ?_⟩
  rw [rpow_1043_12]
  norm_num

/-! IEEE behavior of the inflation-adjusted growth at `past = 0`. -/

theorem calcInfAdjGrowthJs_of_pos (currentListeners addedDate now : ℝ)
    (hc : 0 < currentListeners) :
    calculateInflationAdjustedGrowthJs currentListeners 0 addedDate now = .posInf := by
  have hinfl : (0:ℝ) < (1 + 0.013) ^ monthsAgo addedDate now :=
    Real.rpow_pos_of_pos (by norm_num) _
  simp only [calculateInflationAdjustedGrowthJs]
  rw [jsDiv_fin_fin_of_ne _ _ (ne_of_gt hinfl), jsSub_fin_fin]
  simp only [neg_zero, add_zero]
  have hcp : 0 < currentListeners / ((1 + 0.013) ^ monthsAgo addedDate now) :=
    div_pos hc hinfl
  rw [jsDiv_fin_fin, if_pos rfl, if_neg (ne_of_gt hcp), if_pos hcp]
  rw [jsMul_posInf_fin, if_neg (by norm_num : (100:ℝ) ≠ 0),
    if_pos (by norm_num : (0:ℝ) < 100)]

theorem calcInfAdjGrowthJs_zero_zero (addedDate now : ℝ) :
    calculateInflationAdjustedGrowthJs 0 0 addedDate now = .nan := by
  have hinfl : (0:ℝ) < (1 + 0.013) ^ monthsAgo addedDate now :=
    Real.rpow_pos_of_pos (by norm_num) _
  simp only [calculateInflationAdjustedGrowthJs]
  rw [jsDiv_fin_fin_of_ne _ _ (ne_of_gt hinfl), jsSub_fin_fin]
  simp only [zero_div, neg_zero, add_zero]
  rw [jsDiv_fin_fin, if_pos rfl, if_pos rfl]
  exact jsMul_nan_left _

/-- C3: the plain growth function returns 0 at `past = 0` via its explicit
guard, while the inflation-adjusted variant applies no guard: at IEEE
fidelity it returns `+∞` for positive current listeners, `NaN` for
`current = 0` as well (`adjust_for_inflation(0, 0)`), and never silently
coerces the `past = 0` case to a finite 0. -/
theorem growth_zero_guard_asymmetry :
    ∀ currentListeners addedDate now : ℝ,
      calculateGrowth currentListeners 0 = 0
      ∧ (0 < currentListeners →
          calculateInflationAdjustedGrowthJs currentListeners 0 addedDate now = .posInf)
      ∧ calculateInflationAdjustedGrowthJs 0 0 addedDate now = .nan
      ∧ (0 ≤ currentListeners →
          calculateInflationAdjustedGrowthJs currentListeners 0 addedDate now ≠ .fin 0) := by
  intro c a n
  refine ⟨by simp [calculateGrowth], calcInfAdjGrowthJs_of_pos c a n,
    calcInfAdjGrowthJs_zero_zero a n, ?_⟩
  intro hc0
  rcases hc0.eq_or_lt with hrfl | hpos
  · rw [← hrfl, calcInfAdjGrowthJs_zero_zero a n]
    intro h
    exact JsNum.noConfusion h
  · rw [calcInfAdjGrowthJs_of_pos c a n hpos]
    intro h
    exact JsNum.noConfusion h

/-- C3 witness: the guard asymmetry at `current = 5` and `current = 0`. -/
theorem growth_zero_guard_asymmetry_witness :
    calculateGrowth 5 0 = 0
    ∧ (0:ℝ) < 5
    ∧ calculateInflationAdjustedGrowthJs 5 0 0 0 = .posInf
    ∧ calculateInflationAdjustedGrowthJs 0 0 0 0 = .nan
    ∧ (0:ℝ) ≤ 5
    ∧ calculateInflationAdjustedGrowthJs 5 0 0 0 ≠ .fin 0 := by
  obtain ⟨h1, h2, h3, h4⟩ := growth_zero_guard_asymmetry 5 0 0
  exact ⟨h1, by norm_num, h2 (by norm_num), h3, by norm_num, h4 (by norm_num)⟩

/-! NaN propagation from a zero-follower artist into the playlist totals. -/

theorem estimateListenersAtDate_zero (addedDate now : ℝ) :
    estimateListenersAtDate 0 addedDate now = 0 := by
  simp only [estimateListenersAtDate]
  rw [if_pos (by norm_num : (0:ℝ) < 10000), zero_div]
  exact Int.floor_zero

theorem calculateCloutScoreJs_zero_zero (addedDate now : ℝ) :
    calculateCloutScoreJs 0 0 addedDate now = .nan := by
  simp only [calculateCloutScoreJs]
  rw [calcInfAdjGrowthJs_zero_zero, jsMul_nan_left, jsMul_nan_left, jsMul_nan_left]
  exact jsRoundNum_nan

theorem scoreObservationJs_zero_followers (now : ℝ) (o : TrackObservation)
    (h : o.currentFollowers = 0) : scoreObservationJs now o = .nan := by
  simp only [scoreObservationJs, h, estimateListenersAtDate_zero, Int.cast_zero]
  exact calculateCloutScoreJs_zero_zero o.addedAt now

theorem aggregatePublicJs_nan {scores : List JsNum} (h : .nan ∈ scores) :
    ∃ s, aggregatePublicJs scores = .ok s
      ∧ s.totalClout = .nan ∧ s.averageClout = .nan ∧ s.normalizedScore = .nan := by
  have hlen : scores.length ≠ 0 := by
    intro hl
    rw [List.length_eq_zero] at hl
    rw [hl] at h
    cases h
  have hsum : jsSum scores = .nan := jsSum_eq_nan h
  simp only [aggregatePublicJs]
  rw [if_neg hlen]
  refine ⟨_, rfl, hsum, ?_, ?_⟩
  · rw [hsum, jsDiv_nan_left]
  · rw [hsum, jsDiv_nan_left, jsMul_nan_left]

/-- C9: the aggregator does not guard against non-finite per-track scores —
a scoreable observation with zero current followers estimates 0 past
listeners, scores to IEEE NaN (0/0 in the inflation-adjusted growth), and
that NaN propagates through the sum into `totalClout`, `averageClout` and
`normalizedScore` of the whole playlist instead of the track being skipped
or flagged. -/
theorem nan_score_poisons_aggregation :
    ∀ addedDate now : ℝ,
      estimateListenersAtDate 0 addedDate now = 0
      ∧ calculateCloutScoreJs 0 0 addedDate now = .nan
      ∧ (∀ (items : List (Option TrackObservation)) (o : TrackObservation),
          some o ∈ items → o.currentFollowers = 0 →
          ∃ s, analyzePublicPlaylistJs now items = .ok s
            ∧ s.totalClout = .nan ∧ s.averageClout = .nan ∧ s.normalizedScore = .nan) := by
  intro a n
  refine ⟨estimateListenersAtDate_zero a n, calculateCloutScoreJs_zero_zero a n, ?_⟩
  intro items o hmem ho
  have hnan : JsNum.nan ∈ (items.filterMap id).map (scoreObservationJs n) := by
    refine List.mem_map.mpr ⟨o, ?_, scoreObservationJs_zero_followers n o ho⟩
    exact List.mem_filterMap.mpr ⟨some o, hmem, rfl⟩
  exact aggregatePublicJs_nan hnan

/-- C9 witness: a one-track playlist whose artist has zero followers. -/
theorem nan_score_poisons_aggregation_witness :
    some (TrackObservation.mk "artist" 0 0) ∈ [some (TrackObservation.mk "artist" 0 0)]
    ∧ (TrackObservation.mk "artist" 0 0).currentFollowers = 0
    ∧ ∃ s, analyzePublicPlaylistJs 0 [some (TrackObservation.mk "artist" 0 0)] = .ok s
        ∧ s.totalClout = .nan ∧ s.averageClout = .nan ∧ s.normalizedScore = .nan := by
  refine ⟨List.mem_cons_self _ _, rfl, ?_⟩
  exact (nan_score_poisons_aggregation 0 0).2.2 _ _ (List.mem_cons_self _ _) rfl

/-- C4 (amended): the `analyze-public-playlist` aggregator surfaces zero
scoreable observations as the caller-visible "no valid tracks" error and
never as an `.ok` summary; the older `calculate-clout` aggregator, however,
has no such guard (see the counterexample). -/
theorem empty_aggregation_is_error :
    (∀ (now : ℝ) (items : List (Option TrackObservation)),
        items.filterMap id = [] →
        analyzePublicPlaylist now items
          = .error "No valid tracks found in playlist. Playlist may contain only podcasts or local files.")
    ∧ (∀ (now : ℝ) (items : List (Option TrackObservation)) (s : PlaylistSummary),
        items.filterMap id = [] → analyzePublicPlaylist now items ≠ .ok s) := by
  have herr : ∀ (now : ℝ) (items : List (Option TrackObservation)),
      items.filterMap id = [] →
      analyzePublicPlaylist now items
        = .error "No valid tracks found in playlist. Playlist may contain only podcasts or local files." := by
    intro now items h
    simp only [analyzePublicPlaylist, h, List.map_nil, aggregatePublicScores,
      List.length_nil, if_true]
  refine ⟨herr, ?_⟩
  intro now items s h hok
  rw [herr now items h] at hok
  exact Except.noConfusion hok

/-- C4 counterexample: the `calculate-clout` aggregator applied to zero
scoreable observations returns a normal summary with `track_count = 0` (and
NaN average and normalized score), not an empty-result error. -/
theorem empty_aggregation_counterexample :
    (calculateCloutEndpoint 0 []).trackCount = 0
    ∧ (calculateCloutEndpoint 0 []).averageClout = .nan
    ∧ (calculateCloutEndpoint 0 []).normalizedScore = .nan := by
  have hdiv : jsDiv (.fin ((([] : List ℤ).sum : ℤ) : ℝ))
      (.fin ((([] : List ℤ).length : ℕ) : ℝ)) = .nan := by
    simp only [List.sum_nil, List.length_nil, Int.cast_zero, Nat.cast_zero]
    rw [jsDiv_fin_fin, if_pos rfl, if_pos rfl]
  simp only [calculateCloutEndpoint, List.filterMap_nil, List.map_nil,
    aggregateCalcCloutScores]
  refine ⟨rfl, hdiv, ?_⟩
  rw [hdiv, jsMul_nan_left]

/-- C4 witness: the amended theorem applied to a playlist whose only entry
is skipped. -/
theorem empty_aggregation_is_error_witness :
    ([(none : Option TrackObservation)].filterMap id = [])
    ∧ analyzePublicPlaylist 0 [none]
        = .error "No valid tracks found in playlist. Playlist may contain only podcasts or local files." := by
  have h : ([(none : Option TrackObservation)].filterMap id) = [] := by simp
  exact ⟨h, empty_aggregation_is_error.1 0 [none] h⟩

/-- C5: for every non-empty score list the public aggregator's pre-rounding
outputs satisfy `average = total / count` and `normalized = average ×
√count`; in particular four tracks scoring 100 each give average 100 and
normalized score 200. -/
theorem aggregate_mean_sqrt_invariant :
    (∀ scores : List ℤ, scores ≠ [] →
      ∃ s, aggregatePublicScores scores = .ok s
        ∧ s.trackCount = scores.length
        ∧ s.totalClout = scores.sum
        ∧ s.averageClout = (s.totalClout : ℝ) / (s.trackCount : ℝ)
        ∧ s.normalizedScore = s.averageClout * Real.sqrt (s.trackCount : ℝ))
    ∧ ∃ s, aggregatePublicScores [100, 100, 100, 100] = .ok s
        ∧ s.averageClout = 100 ∧ s.normalizedScore = 200 := by
  have main : ∀ scores : List ℤ, scores ≠ [] →
      ∃ s, aggregatePublicScores scores = .ok s
        ∧ s.trackCount = scores.length
        ∧ s.totalClout = scores.sum
        ∧ s.averageClout = (s.totalClout : ℝ) / (s.trackCount : ℝ)
        ∧ s.normalizedScore = s.averageClout * Real.sqrt (s.trackCount : ℝ) := by
    intro scores h
    have hlen : scores.length ≠ 0 := fun hh => h (List.length_eq_zero.mp hh)
    simp only [aggregatePublicScores]
    rw [if_neg hlen]
    exact ⟨_, rfl, rfl, rfl, rfl, rfl⟩
  refine ⟨main, ?_⟩
  obtain ⟨s, hok, hcnt, htot, havg, hnorm⟩ := main [100, 100, 100, 100] (by simp)
  have hsum : ([100, 100, 100, 100] : List ℤ).sum = 400 := by decide
  have hlen4 : ([100, 100, 100, 100] : List ℤ).length = 4 := rfl
  have havg100 : s.averageClout = 100 := by
    rw [havg, htot, hcnt, hsum, hlen4]
    norm_num
  refine ⟨s, hok, havg100, ?_⟩
  rw [hnorm, havg100, hcnt, hlen4]
  have hsqrt : Real.sqrt ((4 : ℕ) : ℝ) = 2 := by
    rw [show (((4 : ℕ)) : ℝ) = 2 ^ 2 by norm_num, Real.sqrt_sq (by norm_num)]
  rw [hsqrt]
  norm_num

/-- C5 witness: the invariant instantiated at a singleton playlist. -/
theorem aggregate_mean_sqrt_invariant_witness :
    ([(1 : ℤ)] ≠ [])
    ∧ ∃ s, aggregatePublicScores [(1 : ℤ)] = .ok s
        ∧ s.trackCount = [(1 : ℤ)].length
        ∧ s.totalClout = [(1 : ℤ)].sum
        ∧ s.averageClout = (s.totalClout : ℝ) / (s.trackCount : ℝ)
        ∧ s.normalizedScore = s.averageClout * Real.sqrt (s.trackCount : ℝ) := by
  refine ⟨by simp, ?_⟩
  exact aggregate_mean_sqrt_invariant.1 [(1 : ℤ)] (by simp)
